import Mathlib

/-!
Verification development for the Universal Car Scraper engine
(`src/main.py`).  The Python code (and the JavaScript it evaluates in the
page context) is shallowly embedded as executable Lean definitions:

* dictionaries become association lists `List (String × List String)`;
* the browser page is an environment structure providing exactly the DOM
  queries the in-page scripts perform (an external collaborator);
* exceptions become explicit outcome values (`Option` / dedicated
  constructors), mirroring the `try`/`except` structure of the source;
* the JavaScript regular expressions used by the extraction script are
  implemented character-by-character with the same greedy semantics.

Definitions keep the source names where Lean allows it.
-/

/-! ## String helpers mirroring the JavaScript / Python primitives -/

/-- Whitespace as matched by the JavaScript `\s` class (ASCII part plus
no-break space; the scripts only ever meet these). -/
def jsWs (c : Char) : Bool :=
  c = ' ' || c = '\t' || c = '\n' || c = '\r' || c.toNat = 11 || c.toNat = 12 ||
    c.toNat = 160

/-- Does `needle` occur at the head of `hay`? (list-level prefix test). -/
def leadsWith : List Char → List Char → Bool
  | [], _ => true
  | _ :: _, [] => false
  | a :: as, b :: bs => a = b && leadsWith as bs

/-- Substring occurrence anywhere in the list (JavaScript
`hay.includes(needle)`). -/
def hasSub (needle : List Char) : List Char → Bool
  | [] => leadsWith needle []
  | c :: rest => leadsWith needle (c :: rest) || hasSub needle rest

/-- JavaScript `hay.includes(needle)` on strings. -/
def strContains (hay needle : String) : Bool :=
  hasSub needle.data hay.data

/-- One pass of the JavaScript `replace(/\s+/g, ' ')`: every whitespace run
becomes a single space.  The boolean flag records whether the previous
character was whitespace. -/
def collapseWsAux : Bool → List Char → List Char
  | _, [] => []
  | afterWs, c :: rest =>
    if jsWs c then
      if afterWs then collapseWsAux true rest
      else ' ' :: collapseWsAux true rest
    else c :: collapseWsAux false rest

/-- JavaScript `String.prototype.trim` (both ends, `\s` class). -/
def trimJs (s : String) : String :=
  String.mk (((s.data.dropWhile jsWs).reverse.dropWhile jsWs).reverse)

/-- The in-page helper `cleanText`:
`text ? text.trim().replace(/\s+/g, ' ') : 'N/A'` (src/main.py line 327).
Note that a non-empty all-whitespace input yields the empty string, not
the sentinel, exactly as in the source. -/
def cleanText (t : String) : String :=
  if t = "" then "N/A"
  else String.mk (collapseWsAux false
    (((t.data.dropWhile jsWs).reverse.dropWhile jsWs).reverse))

/-- JavaScript / Python lower-casing on the character range the scraper
meets (ASCII plus the Latin-1 accented letters of Portuguese). -/
def jsLowerChar (c : Char) : Char :=
  if 'A' ≤ c && c ≤ 'Z' then Char.ofNat (c.toNat + 32)
  else if 'À' ≤ c && c ≤ 'Þ' && !(c = '×') then Char.ofNat (c.toNat + 32)
  else c

/-- Python `str.upper` on the same character range. -/
def jsUpperChar (c : Char) : Char :=
  if 'a' ≤ c && c ≤ 'z' then Char.ofNat (c.toNat - 32)
  else if 'à' ≤ c && c ≤ 'þ' && !(c = '÷') then Char.ofNat (c.toNat - 32)
  else c

/-- Lower-casing of a whole string (`toLowerCase()`). -/
def toLowerJs (s : String) : String :=
  String.mk (s.data.map jsLowerChar)

/-- Upper-casing of a whole string (Python `.upper()`). -/
def toUpperJs (s : String) : String :=
  String.mk (s.data.map jsUpperChar)

/-- Accumulating pass of Python `str.split()`: the first argument holds
the current word reversed. -/
def pySplitAux : List Char → List Char → List String
  | acc, [] => if acc.isEmpty then [] else [String.mk acc.reverse]
  | acc, c :: rest =>
    if jsWs c then
      if acc.isEmpty then pySplitAux [] rest
      else String.mk acc.reverse :: pySplitAux [] rest
    else pySplitAux (c :: acc) rest

/-- Python `str.split()` with no argument: split on whitespace runs,
dropping empty pieces. -/
def pySplit (s : String) : List String :=
  pySplitAux [] s.data

/-- Python `' '.join`. -/
def joinSpace : List String → String
  | [] => ""
  | [a] => a
  | a :: rest => a ++ " " ++ joinSpace rest

/-- JavaScript `s.startsWith('/')`. -/
def startsWithSlash (s : String) : Bool :=
  match s.data with
  | '/' :: _ => true
  | _ => false

/-- Insertion into a JavaScript `Set` materialised as a list in insertion
order: append if not already present. -/
def setAdd (s : List String) (x : String) : List String :=
  if x ∈ s then s else s ++ [x]

/-! ## Selector dictionaries and the merge of `get_universal_selectors`
(src/main.py lines 173-223) -/

/-- Lookup in a Python dict modelled as an association list (first
binding wins; Python dicts have unique keys). -/
def dictLookup : List (String × List String) → String → Option (List String)
  | [], _ => none
  | (k', v) :: rest, k => if k' = k then some v else dictLookup rest k

/-- `d[k] = v`: update the binding for `k`, or append a fresh one. -/
def dictSet : List (String × List String) → String → List String →
    List (String × List String)
  | [], k, v => [(k, v)]
  | (k', v') :: rest, k, v =>
    if k' = k then (k, v) :: rest else (k', v') :: dictSet rest k v

/-- Lookup defaulting to the empty selector list. -/
def lookupD (d : List (String × List String)) (k : String) : List String :=
  (dictLookup d k).getD []

/-- First merge loop of `get_universal_selectors`: for every site-specific
(Autocarro) entry, prepend it to the generic entry of the same key, or
insert it (src/main.py lines 209-213). -/
def mergeSiteLoop : List (String × List String) → List (String × List String) →
    List (String × List String)
  | [], uni => uni
  | (k, sels) :: rest, uni =>
    match dictLookup uni k with
    | some existing => mergeSiteLoop rest (dictSet uni k (sels ++ existing))
    | none => mergeSiteLoop rest (dictSet uni k sels)

/-- Second merge loop: caller-supplied custom selectors are appended
(`extend`) to the entry of the same key, or inserted
(src/main.py lines 216-221). -/
def mergeCustomLoop : List (String × List String) → List (String × List String) →
    List (String × List String)
  | [], uni => uni
  | (k, sels) :: rest, uni =>
    match dictLookup uni k with
    | some existing => mergeCustomLoop rest (dictSet uni k (existing ++ sels))
    | none => mergeCustomLoop rest (dictSet uni k sels)

/-- The full merge: site-specific rules folded into the generic table,
then custom rules appended. -/
def mergeSelectors (site gen custom : List (String × List String)) :
    List (String × List String) :=
  mergeCustomLoop custom (mergeSiteLoop site gen)

/-- The Autocarro-specific selector table (`get_autocarro_selectors`,
src/main.py lines 83-171).  The `specs_icons` entry of the source holds a
nested mapping rather than a selector list; it is not consulted by any
code path modelled here (the in-page script uses its own fixed patterns)
and is omitted from the dictionary model. -/
def autocarroSelectors : List (String × List String) :=
  [ ("car_links",
      ["a[href*=\"/anuncio/\"]", "a[href*=\"/veiculo/\"]", ".item-carro a",
       ".card-veiculo a", ".anuncio-item a"]),
    ("price",
      [".preco-valor", ".valor-venda", ".price-container .valor",
       "[class*=\"prec\"]", ".price-display"]),
    ("title",
      ["h1.titulo-veiculo", "h1.car-title", ".vehicle-title h1",
       ".anuncio-titulo h1"]),
    ("year", [".ano-modelo", ".badge-ano", ".year-badge"]),
    ("gallery_images",
      [".gallery-container img", ".carousel-images img",
       ".vehicle-photos img", ".galeria-fotos img"]),
    ("thumbnail_images",
      [".thumbs-container img", ".thumbnail-gallery img", ".mini-fotos img"]),
    ("optionals_section",
      [".opcionais-lista", ".optional-items", ".vehicle-features",
       ".features-list"]),
    ("contact_button",
      [".btn-contato", ".enviar-proposta", ".contact-dealer",
       "button[onclick*=\"proposta\"]"]),
    ("dealer_info", [".dealer-name", ".vendedor-nome", ".loja-nome"]) ]

/-- The generic (universal) selector table, the literal
`universal_selectors` of src/main.py lines 177-206. -/
def universalBase : List (String × List String) :=
  [ ("car_links",
      ["a[href*=\"/veiculo/\"]", "a[href*=\"/carro/\"]",
       "a[href*=\"/automovel/\"]", "a[href*=\"/anuncio/\"]",
       "a[href*=\"/vehicle/\"]", ".item-carro a", ".veiculo-item a",
       ".car-item a", ".anuncio-item a", ".vehicle-card a",
       ".card-veiculo a"]),
    ("price",
      [".preco", ".price", ".valor", ".preço", "[class*=\"prec\"]",
       "[class*=\"valor\"]", "[class*=\"price\"]", ".price-value",
       ".car-price", ".veiculo-preco", ".price-container", ".valor-venda",
       ".preco-venda"]),
    ("title",
      ["h1", ".titulo", ".title", ".nome-veiculo", ".car-title",
       ".vehicle-title", ".anuncio-titulo"]),
    ("images",
      [".galeria img", ".fotos img", ".gallery img", ".car-images img",
       ".vehicle-photos img", ".carousel img", ".slider img"]) ]

/-- `UniversalCarScraper.get_universal_selectors` (src/main.py lines
173-223).  The custom table is optional: `config.get('custom_selectors')`
is falsy for `None` (and for an empty dict, for which running the loop
is a no-op anyway). -/
def get_universal_selectors (custom : Option (List (String × List String))) :
    List (String × List String) :=
  match custom with
  | none => mergeSiteLoop autocarroSelectors universalBase
  | some c => mergeSelectors autocarroSelectors universalBase c

/-! ## Link discovery (`UniversalCarScraper.get_car_links`,
src/main.py lines 247-314)

The browser page is an external collaborator; the model provides exactly
the queries that the in-page link-harvesting script performs. -/

/-- The state of the index page as seen by `get_car_links`.
`navRaised` is true when `page.goto` (or one of the evaluations) raised,
e.g. on a navigation timeout — the surrounding `try` catches this.
`dom sel` is the list of `href` attributes of the anchors matched by
`sel` in document order (`none` models `querySelectorAll` throwing on
that selector, which the script catches and skips; an anchor with no
`href` attribute is an inner `none`).  `origin` is
`url.protocol + '//' + url.host` of the base URL. -/
structure LinkPage where
  navRaised : Bool := false
  dom : String → Option (List (Option String)) := fun _ => some []
  origin : String := ""

/-- The listing-keyword filter of the in-page script (src/main.py lines
292-293). -/
def isCarHref (href : String) : Bool :=
  strContains href "veiculo" || strContains href "carro" ||
    strContains href "anuncio" || strContains href "automovel"

/-- Root-relative URL resolution against the page origin
(src/main.py lines 287-290 and 422-424). -/
def resolveHref (origin href : String) : String :=
  if startsWithSlash href then origin ++ href else href

/-- Processing of one matched anchor by the link script: resolve a
root-relative href, keep it only if it contains a listing keyword, and
insert it into the result set. -/
def addAnchor (origin : String) (s : List String) (href? : Option String) :
    List String :=
  match href? with
  | none => s
  | some href =>
    let href2 := resolveHref origin href
    if isCarHref href2 then setAdd s href2 else s

/-- Processing of one selector of the chain: a throwing selector is
caught and skipped, otherwise every matched anchor is processed. -/
def addSelectorLinks (dom : String → Option (List (Option String)))
    (origin : String) (s : List String) (sel : String) : List String :=
  match dom sel with
  | none => s
  | some anchors => anchors.foldl (addAnchor origin) s

/-- The whole in-page link-harvesting script (src/main.py lines 277-305):
fold every selector of the chain over an initially empty insertion-order
set. -/
def evalCarLinksScript (dom : String → Option (List (Option String)))
    (origin : String) (selectors : List String) : List String :=
  selectors.foldl (addSelectorLinks dom origin) []

/-- The scraper configuration dict (the keys consulted by the engine;
`.get` defaults are applied at the use sites, as in the source). -/
structure Config where
  custom_selectors : Option (List (String × List String)) := none
  max_pages : Option Nat := none
  delay_between_requests : Option Nat := none

/-- The `job_stats` counters of `UniversalCarScraper` (src/main.py lines
67-73; the wall-clock start/end stamps are modelled by the elapsed-time
accounting of the orchestrator loop). -/
structure JobStats where
  total_found : Nat := 0
  successfully_scraped : Nat := 0
  errors : Nat := 0
deriving DecidableEq

/-- Fresh counters at scraper construction. -/
def stats0 : JobStats := {}

/-- `UniversalCarScraper.get_car_links`: on any raise inside the `try`
(e.g. a 30s navigation timeout) the `except` returns `[]` without
touching the statistics; otherwise the selector chain is evaluated,
`total_found` records the pre-truncation count, and the list is
truncated to `max_pages` (default 50). -/
def get_car_links (cfg : Config) (page : LinkPage) (stats : JobStats) :
    List String × JobStats :=
  if page.navRaised then ([], stats)
  else
    let selectors := lookupD (get_universal_selectors cfg.custom_selectors)
      "car_links"
    let car_links := evalCarLinksScript page.dom page.origin selectors
    (car_links.take (cfg.max_pages.getD 50),
     { stats with total_found := car_links.length })

/-! ## Field extraction (`UniversalCarScraper.extract_car_data`,
src/main.py lines 316-577) -/

/-- An `img` element as consulted by `getAllImages`: `src` is the
reflected property (empty string when absent), the data attributes are
`getAttribute` results (`none` models `null`). -/
structure ImgEl where
  src : String := ""
  dataSrc : Option String := none
  dataLazy : Option String := none
deriving DecidableEq

/-- The state of one listing page as seen by the extraction script.
`raises` is true when navigation or evaluation raised (caught by the
per-URL `except`); `duration` is the wall time spent on this URL.
`queryText sel` is the `textContent` of the first element matched by
`sel` (`none` when there is no such element), `priceTexts` the texts of
`querySelectorAll` on the fixed compound price selector in document
order, `sectionItems sel` the texts of the `li, .item, span, p` children
of the features section matched by `sel` (`none` when the section is
absent), and `whatsappHrefs` the `href` properties of the anchors
matched by the whatsapp selectors in document order. -/
structure ListingPage where
  raises : Bool := false
  duration : Nat := 0
  href : String := ""
  hostname : String := ""
  origin : String := ""
  title : String := ""
  bodyText : String := ""
  now : String := ""
  queryText : String → Option String := fun _ => none
  priceTexts : List String := []
  queryImages : String → List ImgEl := fun _ => []
  sectionItems : String → Option (List String) := fun _ => none
  whatsappHrefs : List String := []

/-- The title selector chain of the in-page `getTitle`
(src/main.py lines 499-504). -/
def titleSelectors : List String :=
  ["h1", ".car-title", ".vehicle-title", ".anuncio-titulo"]

/-- The loop of `getTitle`: the first selector whose element exists and
has non-empty trimmed text wins. -/
def findFirstTitle (q : String → Option String) : List String → Option String
  | [] => none
  | sel :: rest =>
    match q sel with
    | some t => if trimJs t ≠ "" then some (cleanText t) else findFirstTitle q rest
    | none => findFirstTitle q rest

/-- In-page `getTitle` (src/main.py lines 498-514): selector chain, then
`document.title` fallback through `cleanText`. -/
def getTitle (p : ListingPage) : String :=
  match findFirstTitle p.queryText titleSelectors with
  | some t => t
  | none => cleanText p.title

/-- The currency test of the price element loop
(src/main.py line 347): a truthy text containing a currency marker. -/
def priceElemCond (t : String) : Bool :=
  t != "" && (strContains t "R$" || strContains t "$")

/-- Character class `[\d.,]` of the currency-amount pattern. -/
def isPriceChar (c : Char) : Bool :=
  c.isDigit || c = '.' || c = ','

/-- One attempt of `/R\$\s*[\d.,]+/` at the head of the text: `R$`, a
greedy whitespace run, then a non-empty greedy run of `[\d.,]`.  Returns
the matched characters and the remainder of the text.  (Backtracking
cannot help this pattern, so maximal munch is exact.) -/
def matchPriceAt : List Char → Option (List Char × List Char)
  | 'R' :: '$' :: rest =>
    let ws := rest.takeWhile jsWs
    let after := rest.dropWhile jsWs
    let digits := after.takeWhile isPriceChar
    if digits.isEmpty then none
    else some ('R' :: '$' :: (ws ++ digits), after.drop digits.length)
  | _ => none

/-- Global scan of `/R\$\s*[\d.,]+/g`: try every position left to right,
resuming after each match.  The fuel equals the text length and never
runs out before the text does (every step consumes at least one
character). -/
def scanPricesAux : Nat → List Char → List String
  | 0, _ => []
  | _, [] => []
  | Nat.succ n, c :: rest =>
    match matchPriceAt (c :: rest) with
    | some (m, rest2) => String.mk m :: scanPricesAux n rest2
    | none => scanPricesAux n rest

/-- All matches of the currency-amount pattern in the page text. -/
def scanPrices (s : String) : List String :=
  scanPricesAux s.data.length s.data

/-- Numeric value of a digit string. -/
def digitsVal (l : List Char) : Nat :=
  l.foldl (fun acc c => acc * 10 + (c.toNat - 48)) 0

/-- `parseFloat(x.replace(/[^\d]/g, ''))` of the price reduce
(src/main.py lines 356-357): strip every non-digit and parse; `none`
models `NaN` (empty digit string). -/
def parsedNum (s : String) : Option Nat :=
  let d := s.data.filter Char.isDigit
  if d.isEmpty then none else some (digitsVal d)

/-- JavaScript `aNum > bNum` where the operands may be `NaN`: any
comparison involving `NaN` is false. -/
def gtNum : Option Nat → Option Nat → Bool
  | some a, some b => decide (b < a)
  | _, _ => false

/-- The `matches.reduce((a, b) => aNum > bNum ? a : b)` of `getPrice`
(src/main.py lines 355-359). -/
def reduceMax : String → List String → String
  | a, [] => a
  | a, b :: rest => reduceMax (if gtNum (parsedNum a) (parsedNum b) then a else b) rest

/-- In-page `getPrice` (src/main.py lines 343-362): first price element
whose text contains a currency marker; otherwise the numerically largest
currency-amount match in the body text; otherwise the sentinel. -/
def getPrice (priceTexts : List String) (bodyText : String) : String :=
  match priceTexts.find? priceElemCond with
  | some t => cleanText t
  | none =>
    match scanPrices bodyText with
    | [] => "N/A"
    | m :: rest => reduceMax m rest

/-- The keys that `getSpecsFromIcons` can set (src/main.py lines
364-396); `marca` and `modelo` are never among them. -/
structure Specs where
  quilometragem : Option String := none
  combustivel : Option String := none
  cambio : Option String := none
  ano : Option String := none
  portas : Option String := none
  cor : Option String := none
  placa : Option String := none
deriving DecidableEq

/-- Exactly `n` digits at the head of the text (the `\d{n}` building
block), returning them and the remainder. -/
def exactDigits : Nat → List Char → Option (List Char × List Char)
  | 0, l => some ([], l)
  | Nat.succ _, [] => none
  | Nat.succ n, c :: rest =>
    if c.isDigit then
      match exactDigits n rest with
      | some (ds, r) => some (c :: ds, r)
      | none => none
    else none

/-- One attempt of `/([\d.,]+)\s*km/i` at the head (the body text is
already lower-cased): greedy `[\d.,]+` run, greedy whitespace, `km`. -/
def matchKmAt (l : List Char) : Option (List Char) :=
  let run := l.takeWhile isPriceChar
  if run.isEmpty then none
  else
    let rest := l.dropWhile isPriceChar
    let ws := rest.takeWhile jsWs
    match rest.dropWhile jsWs with
    | 'k' :: 'm' :: _ => some (run ++ ws ++ ['k', 'm'])
    | _ => none

/-- `(19|20)\d{2}` at the head, returning the four digits and the
remainder. -/
def year4At : List Char → Option (List Char × List Char)
  | c1 :: c2 :: c3 :: c4 :: rest =>
    if ((c1 = '1' && c2 = '9') || (c1 = '2' && c2 = '0')) && c3.isDigit && c4.isDigit
    then some ([c1, c2, c3, c4], rest) else none
  | _ => none

/-- One attempt of `/(19|20)\d{2}\/(19|20)\d{2}|(19|20)\d{2}/` at the
head; the two-year alternative is preferred at a given position. -/
def matchAnoAt (l : List Char) : Option (List Char) :=
  match year4At l with
  | none => none
  | some (y1, r) =>
    match r with
    | '/' :: r2 =>
      match year4At r2 with
      | some (y2, _) => some (y1 ++ '/' :: y2)
      | none => some y1
    | _ => some y1

/-- One attempt of `/(\d)\s*portas?/i` at the head of the lower-cased
text; the trailing `s?` is greedy. -/
def matchPortasAt : List Char → Option (List Char)
  | [] => none
  | c :: rest =>
    if c.isDigit then
      let ws := rest.takeWhile jsWs
      match rest.dropWhile jsWs with
      | 'p' :: 'o' :: 'r' :: 't' :: 'a' :: 's' :: _ =>
        some (c :: ws ++ ['p', 'o', 'r', 't', 'a', 's'])
      | 'p' :: 'o' :: 'r' :: 't' :: 'a' :: _ =>
        some (c :: ws ++ ['p', 'o', 'r', 't', 'a'])
      | _ => none
    else none

/-- One attempt of `/[A-Z]{3}-?\d{4}|[A-Z]{3}\d[A-Z]\d{2}/i` at the
head (on the lower-cased text the `/i` flag makes `[A-Z]` any ASCII
letter); the first alternative is preferred. -/
def matchPlacaAt (l : List Char) : Option (List Char) :=
  match l with
  | a :: b :: c :: rest =>
    if a.isAlpha && b.isAlpha && c.isAlpha then
      let alt1 : Option (List Char) :=
        match rest with
        | '-' :: r2 =>
          match exactDigits 4 r2 with
          | some (ds, _) => some (a :: b :: c :: '-' :: ds)
          | none => none
        | _ =>
          match exactDigits 4 rest with
          | some (ds, _) => some (a :: b :: c :: ds)
          | none => none
      match alt1 with
      | some m => some m
      | none =>
        match rest with
        | d :: e :: rest2 =>
          if d.isDigit && e.isAlpha then
            match exactDigits 2 rest2 with
            | some (ds, _) => some (a :: b :: c :: d :: e :: ds)
            | none => none
          else none
        | _ => none
    else none
  | _ => none

/-- Leftmost-match scan of a single (non-global) pattern: try the
matcher at every position left to right.  Fuel equals the text length. -/
def scanFirstAux (f : List Char → Option (List Char)) :
    Nat → List Char → Option String
  | 0, _ => none
  | _, [] => none
  | Nat.succ n, c :: rest =>
    match f (c :: rest) with
    | some m => some (String.mk m)
    | none => scanFirstAux f n rest

/-- First match of a pattern in a string (`text.match(re)` with
`match[0]`). -/
def scanFirst (f : List Char → Option (List Char)) (s : String) : Option String :=
  scanFirstAux f s.data.length s.data

/-- The `values` strategy of `getSpecsFromIcons`: first vocabulary entry
contained in the lower-cased body text. -/
def firstIncluded (lowerBody : String) (vals : List String) : Option String :=
  vals.find? (fun v => strContains lowerBody v)

/-- In-page `getSpecsFromIcons` (src/main.py lines 364-396): every key
is inferred independently from the lower-cased body text, by regex or by
vocabulary membership. -/
def getSpecsFromIcons (bodyText : String) : Specs :=
  let lower := toLowerJs bodyText
  { quilometragem := scanFirst matchKmAt lower
    combustivel := firstIncluded lower ["flex", "gasolina", "etanol", "diesel", "gnv"]
    cambio := firstIncluded lower ["automático", "manual", "cvt"]
    ano := scanFirst matchAnoAt lower
    portas := scanFirst matchPortasAt lower
    cor := firstIncluded lower ["preta", "branca", "prata", "vermelha", "azul", "cinza"]
    placa := scanFirst matchPlacaAt lower }

/-- The fixed image selector list of `getAllImages`
(src/main.py lines 401-409). -/
def imgSelectors : List String :=
  ["img[src*=\"autocarro\"]", ".gallery img", ".carousel img",
   ".vehicle-photos img", ".thumbs img", "img[alt*=\"carro\"]",
   "img[alt*=\"veículo\"]"]

/-- `img.src || img.getAttribute('data-src') || img.getAttribute('data-lazy')`
with JavaScript truthiness: the first non-empty, non-null candidate. -/
def imgChosenSrc (img : ImgEl) : Option String :=
  if img.src != "" then some img.src
  else
    match img.dataSrc with
    | some s =>
      if s != "" then some s
      else
        match img.dataLazy with
        | some s2 => if s2 != "" then some s2 else none
        | none => none
    | none =>
      match img.dataLazy with
      | some s2 => if s2 != "" then some s2 else none
      | none => none

/-- The acceptance test of `getAllImages` (src/main.py lines 416-420):
a recognised image extension, no logo/icon/button marker, and a minimum
length — all checked before resolution. -/
def imgAccept (src : String) : Bool :=
  (strContains src ".jpg" || strContains src ".jpeg" ||
   strContains src ".png" || strContains src ".webp") &&
  !strContains src "logo" && !strContains src "icon" &&
  !strContains src "btn" && decide (20 < src.length)

/-- Processing of one image element: choose a source, filter, resolve a
root-relative path, insert into the result set. -/
def addImage (origin : String) (acc : List String) (img : ImgEl) : List String :=
  match imgChosenSrc img with
  | none => acc
  | some src =>
    if imgAccept src then setAdd acc (resolveHref origin src) else acc

/-- In-page `getAllImages` (src/main.py lines 398-433). -/
def getAllImages (p : ListingPage) : List String :=
  imgSelectors.foldl
    (fun acc sel => (p.queryImages sel).foldl (addImage p.origin) acc) []

/-- The features-section selector list of `getOptionals`
(src/main.py lines 438-441). -/
def optionalSections : List String :=
  [".opcionais", ".optional", ".features", ".equipamentos", ".acessorios",
   ".extras"]

/-- The per-item test of `getOptionals` (src/main.py line 450): truthy
cleaned text with length strictly between 2 and 50. -/
def goodOptionalText (t : String) : Bool :=
  t != "" && decide (2 < t.length) && decide (t.length < 50)

/-- The section loop of `getOptionals`: for every present section, push
the qualifying cleaned child texts in document order. -/
def collectFromSections (items : String → Option (List String)) :
    List String → List String
  | [] => []
  | sec :: rest =>
    match items sec with
    | none => collectFromSections items rest
    | some its =>
      ((its.map cleanText).filter goodOptionalText) ++ collectFromSections items rest

/-- The fixed fallback vocabulary of common automotive features
(src/main.py lines 459-464). -/
def commonOptionals : List String :=
  ["air bag", "abs", "direção hidráulica", "ar condicionado",
   "vidros elétricos", "travas elétricas", "alarme", "som",
   "cd player", "mp3", "bluetooth", "gps", "câmera de ré",
   "sensor de estacionamento", "teto solar", "banco de couro"]

/-- `[...new Set(l)]`: deduplication keeping first occurrences in
order. -/
def dedupFirst (l : List String) : List String :=
  l.foldl setAdd []

/-- In-page `getOptionals` (src/main.py lines 435-475): collect from the
feature sections; if nothing was collected, scan the lower-cased body
text for the fixed vocabulary; deduplicate and cap at 20. -/
def getOptionals (items : String → Option (List String)) (bodyText : String) :
    List String :=
  let optionals := collectFromSections items optionalSections
  let optionals2 :=
    if optionals.isEmpty then
      commonOptionals.filter (fun o => strContains (toLowerJs bodyText) o)
    else optionals
  (dedupFirst optionals2).take 20

/-- The tail `\d{n}-?\d{4}` of the phone pattern for a fixed first run
length `n`. -/
def phoneTail (l : List Char) (n : Nat) : Option (List Char) :=
  match exactDigits n l with
  | none => none
  | some (ds, r) =>
    match r with
    | '-' :: r2 =>
      match exactDigits 4 r2 with
      | some (ds2, _) => some (ds ++ '-' :: ds2)
      | none => none
    | _ =>
      match exactDigits 4 r with
      | some (ds2, _) => some (ds ++ ds2)
      | none => none

/-- `\d{4,5}-?\d{4}` with the greedy five-digit run tried first. -/
def matchPhoneDigits (l : List Char) : Option (List Char) :=
  match phoneTail l 5 with
  | some m => some m
  | none => phoneTail l 4

/-- The part after the two leading digits: `\)?\s*\d{4,5}-?\d{4}`. -/
def matchPhoneAfterDD (l : List Char) : Option (List Char) :=
  match l with
  | ')' :: r =>
    let ws := r.takeWhile jsWs
    (matchPhoneDigits (r.dropWhile jsWs)).map (fun m => ')' :: (ws ++ m))
  | _ =>
    let ws := l.takeWhile jsWs
    (matchPhoneDigits (l.dropWhile jsWs)).map (fun m => ws ++ m)

/-- One attempt of the phone pattern
`/\(?\d{2}\)?\s*\d{4,5}-?\d{4}/` at the head of the text. -/
def matchPhoneAt (l : List Char) : Option (List Char) :=
  match l with
  | '(' :: r =>
    match exactDigits 2 r with
    | some (dd, r2) => (matchPhoneAfterDD r2).map (fun m => '(' :: (dd ++ m))
    | none => none
  | _ =>
    match exactDigits 2 l with
    | some (dd, r2) => (matchPhoneAfterDD r2).map (fun m => dd ++ m)
    | none => none

/-- First match of `/\d{11,}/`: the first maximal digit run of length at
least 11 (a shorter run cannot hide a later start inside itself, so whole
runs are skipped).  Fuel equals the text length. -/
def findLongDigitsAux : Nat → List Char → Option String
  | 0, _ => none
  | _, [] => none
  | Nat.succ n, c :: rest =>
    if c.isDigit then
      let run := (c :: rest).takeWhile Char.isDigit
      if 11 ≤ run.length then some (String.mk run)
      else findLongDigitsAux n ((c :: rest).dropWhile Char.isDigit)
    else findLongDigitsAux n rest

/-- The `contact` record of the in-page script. -/
structure Contact where
  telefone : Option String := none
  whatsapp : Option String := none

/-- In-page `getContactInfo` (src/main.py lines 477-496): first phone
match in the body text, and a run of at least 11 digits in the first
whatsapp link. -/
def getContactInfo (p : ListingPage) : Contact :=
  { telefone := scanFirst matchPhoneAt p.bodyText
    whatsapp :=
      match p.whatsappHrefs with
      | [] => none
      | href :: _ => findLongDigitsAux href.data.length href.data }

/-- `document.querySelector('.visitas')?.textContent || 'N/A'`
(src/main.py line 554): the raw text (not cleaned), with falsy values
replaced by the sentinel. -/
def getVisitas (p : ListingPage) : String :=
  match p.queryText ".visitas" with
  | none => "N/A"
  | some t => if t = "" then "N/A" else t

/-- One extracted listing record, the object literal returned by the
in-page script (src/main.py lines 521-558).  Every field is always
present; `N/A` is the unknown sentinel of the string fields. -/
structure CarData where
  url : String
  timestamp : String
  domain : String
  titulo : String
  preco : String
  marca : String
  modelo : String
  ano : String
  quilometragem : String
  combustivel : String
  cambio : String
  cor : String
  placa : String
  portas : String
  cidade : String
  estado : String
  fotos : List String
  total_fotos : Nat
  opcionais : List String
  total_opcionais : Nat
  telefone : String
  whatsapp : String
  descricao : String
  vendedor : String
  visitas : String
  extracted_at : String
  extraction_success : Bool
deriving DecidableEq

/-- Assembly of the record by the in-page script.  `specs.marca` and
`specs.modelo` are never set by `getSpecsFromIcons`, so those fields
start as the sentinel. -/
def evalCarDataScript (p : ListingPage) : CarData :=
  let specs := getSpecsFromIcons p.bodyText
  let images := getAllImages p
  let optionals := getOptionals p.sectionItems p.bodyText
  let contact := getContactInfo p
  { url := p.href
    timestamp := p.now
    domain := p.hostname
    titulo := getTitle p
    preco := getPrice p.priceTexts p.bodyText
    marca := "N/A"
    modelo := "N/A"
    ano := specs.ano.getD "N/A"
    quilometragem := specs.quilometragem.getD "N/A"
    combustivel := specs.combustivel.getD "N/A"
    cambio := specs.cambio.getD "N/A"
    cor := specs.cor.getD "N/A"
    placa := specs.placa.getD "N/A"
    portas := specs.portas.getD "N/A"
    cidade := "N/A"
    estado := "N/A"
    fotos := images
    total_fotos := images.length
    opcionais := optionals
    total_opcionais := optionals.length
    telefone := contact.telefone.getD "N/A"
    whatsapp := contact.whatsapp.getD "N/A"
    descricao := "N/A"
    vendedor := "N/A"
    visitas := getVisitas p
    extracted_at := p.now
    extraction_success := true }

/-- The Python post-processing of src/main.py lines 562-567: when the
title is known and has at least two words, the first upper-cased word
becomes the brand and the next one or two words the model. -/
def postProcessMarcaModelo (car : CarData) : CarData :=
  if car.titulo ≠ "N/A" then
    match pySplit (toUpperJs car.titulo) with
    | a :: b :: rest =>
      { car with marca := a, modelo := joinSpace ((b :: rest).take 2) }
    | _ => car
  else car

/-- The record produced for one URL: `none` when navigation or
evaluation raised (the per-URL `except` of src/main.py lines 574-577). -/
def carOf (p : ListingPage) : Option CarData :=
  if p.raises then none else some (postProcessMarcaModelo (evalCarDataScript p))

/-- `UniversalCarScraper.extract_car_data`: the success path returns the
post-processed record and bumps `successfully_scraped`; the `except`
path returns `None` and bumps `errors`. -/
def extract_car_data (p : ListingPage) (stats : JobStats) :
    Option CarData × JobStats :=
  (carOf p,
   if p.raises then { stats with errors := stats.errors + 1 }
   else { stats with successfully_scraped := stats.successfully_scraped + 1 })

/-! ## Job orchestration (`scrape_website` and `run_scraping_job`,
src/main.py lines 579-613 and 691-743) -/

/-- What happens when the loop body turns to one URL.  `page` is the
ordinary case: `extract_car_data` runs and its internal `except` absorbs
any exception of navigation or evaluation.  `fatal` models an exception
that the per-URL handler does not intercept (for instance a cancellation
or an error raised outside that handler), which therefore propagates out
of the sequential loop to the `except` of `scrape_website`. -/
inductive PageOutcome where
  | page (p : ListingPage)
  | fatal (msg : String)

/-- Does processing this URL abort the whole sequence? -/
def isFatalOutcome : PageOutcome → Bool
  | PageOutcome.fatal _ => true
  | PageOutcome.page _ => false

/-- The record contributed by one URL (none for a caught per-URL failure
and none for a fatal abort). -/
def outcomeCar : PageOutcome → Option CarData
  | PageOutcome.page p => carOf p
  | PageOutcome.fatal _ => none

/-- Does this URL hit the caught per-URL failure path? -/
def outcomeRaises : PageOutcome → Bool
  | PageOutcome.page p => p.raises
  | PageOutcome.fatal _ => false

/-- Is this URL extracted successfully? -/
def outcomeOk : PageOutcome → Bool
  | PageOutcome.page p => !p.raises
  | PageOutcome.fatal _ => false

/-- Wall time spent on this URL. -/
def outcomeDur : PageOutcome → Nat
  | PageOutcome.page p => p.duration
  | PageOutcome.fatal _ => 0

/-- Result of the sequential loop of `scrape_website`: a fatal message
when an exception escaped, the accumulated `cars_data`, the statistics,
the elapsed wall time of the sequential phase and the number of
inter-request sleeps performed. -/
structure LoopResult where
  fatalMsg : Option String
  data : List CarData
  stats : JobStats
  elapsed : Nat
  sleeps : Nat

/-- The `for i, car_url in enumerate(car_links, 1)` loop of
`scrape_website` (src/main.py lines 595-603): extract each URL in order,
append a produced record to `cars_data`, and sleep the configured delay
after every URL except the last (`if i < len(car_links)`). -/
def scrapeLoop (delay : Nat) (pages : String → PageOutcome) :
    List String → List CarData → JobStats → Nat → Nat → LoopResult
  | [], data, stats, t, s => ⟨none, data, stats, t, s⟩
  | u :: rest, data, stats, t, s =>
    match pages u with
    | PageOutcome.fatal msg => ⟨some msg, data, stats, t, s⟩
    | PageOutcome.page p =>
      let r := extract_car_data p stats
      let data2 := match r.1 with
        | some car => data ++ [car]
        | none => data
      if rest.isEmpty then scrapeLoop delay pages rest data2 r.2 (t + p.duration) s
      else scrapeLoop delay pages rest data2 r.2 (t + p.duration + delay) (s + 1)

/-- Terminal result of `scrape_website`: either the returned `cars_data`
(with statistics and the timing of the sequential phase), or a
re-raised exception carrying the message — in which case the scraper
object still holds the accumulated `cars_data`, which the `except` of
src/main.py lines 605-607 never clears. -/
inductive ScrapeOutcome where
  | ok (data : List CarData) (stats : JobStats) (elapsed : Nat) (sleeps : Nat)
  | fatal (msg : String) (data : List CarData) (stats : JobStats)

/-- The sleeps performed during the sequential phase. -/
def ScrapeOutcome.sleepCount : ScrapeOutcome → Nat
  | ScrapeOutcome.ok _ _ _ s => s
  | ScrapeOutcome.fatal _ _ _ => 0

/-- The elapsed wall time of the sequential phase. -/
def ScrapeOutcome.elapsedTime : ScrapeOutcome → Nat
  | ScrapeOutcome.ok _ _ e _ => e
  | ScrapeOutcome.fatal _ _ _ => 0

/-- The browser world of one job: a possible browser-launch failure
(raised before the `try` of `scrape_website` is entered), the index
page, and the behaviour of every listing URL. -/
structure Env where
  launchFailure : Option String := none
  linkPage : LinkPage := {}
  pages : String → PageOutcome := fun _ => PageOutcome.fatal ""

/-- `UniversalCarScraper.scrape_website` (src/main.py lines 579-613):
launch the browser (a failure propagates with nothing accumulated), run
link discovery once, return early on an empty link list, otherwise run
the sequential loop; an exception escaping the loop is logged and
re-raised, preserving the accumulated `cars_data`. -/
def scrape_website (cfg : Config) (env : Env) : ScrapeOutcome :=
  match env.launchFailure with
  | some msg => ScrapeOutcome.fatal msg [] stats0
  | none =>
    let r := get_car_links cfg env.linkPage stats0
    if r.1.isEmpty then ScrapeOutcome.ok [] r.2 0 0
    else
      let lr := scrapeLoop (cfg.delay_between_requests.getD 2) env.pages r.1 []
        r.2 0 0
      match lr.fatalMsg with
      | some msg => ScrapeOutcome.fatal msg lr.data lr.stats
      | none => ScrapeOutcome.ok lr.data lr.stats lr.elapsed lr.sleeps

/-- The `ScrapeJob` fields mutated by `run_scraping_job`
(src/main.py lines 43-55 and 691-743); `result_file` records whether a
result file pointer was set. -/
structure Job where
  status : String
  total_found : Nat := 0
  successfully_scraped : Nat := 0
  errors : Nat := 0
  result_file : Bool := false
  error_message : Option String := none
deriving DecidableEq

/-- Observable outcome of one background job execution: the terminal
job record, the cars written to the result file (`none` when no file was
written), and the scraper's `cars_data` after execution. -/
structure RunResult where
  job : Job
  savedCars : Option (List CarData)
  scraperData : List CarData
deriving DecidableEq

/-- `run_scraping_job` (src/main.py lines 691-743): on success the job
completes, the counters are copied from the scraper, and the result file
holds the records; on any escaping exception the `except` of lines
740-743 marks the job failed with the message recorded — the counters
are never copied and no result file is written, while the scraper's
accumulated `cars_data` is left untouched. -/
def run_scraping_job (cfg : Config) (env : Env) : RunResult :=
  match scrape_website cfg env with
  | ScrapeOutcome.ok data stats _ _ =>
    { job := { status := "completed", total_found := stats.total_found,
               successfully_scraped := stats.successfully_scraped,
               errors := stats.errors, result_file := true },
      savedCars := some data, scraperData := data }
  | ScrapeOutcome.fatal msg data _stats =>
    { job := { status := "failed", error_message := some msg },
      savedCars := none, scraperData := data }

/-- Numeric reading of a currency match for stating the maximality of
the price heuristic (`0` for a digit-free match). -/
def valOf (s : String) : Nat :=
  (parsedNum s).getD 0

/-! ## Concrete fixtures used to evaluate the theorems on closed inputs -/

/-- An index page exposing three listing anchors (one of them through a
second selector) and one navigation anchor. -/
def linkPageA : LinkPage :=
  { navRaised := false
    origin := "https://example.com"
    dom := fun sel =>
      if sel = "a[href*=\"/anuncio/\"]" then
        some [some "/anuncio/1", some "/anuncio/2", none]
      else if sel = ".item-carro a" then
        some [some "/anuncio/3", some "/nav/sobre"]
      else some [] }

/-- An index page whose only anchor matches the built-in
`/vehicle/` selector but contains no listing keyword. -/
def linkPageV : LinkPage :=
  { origin := "https://example.io"
    dom := fun sel =>
      if sel = "a[href*=\"/vehicle/\"]" then some [some "/vehicle/99"]
      else some [] }

/-- An index page whose navigation timed out (`goto` raised) although its
DOM holds a matching listing anchor. -/
def timeoutPage : LinkPage :=
  { navRaised := true
    origin := "https://example.com"
    dom := fun sel =>
      if sel = "a[href*=\"/veiculo/\"]" then some [some "/veiculo/1"]
      else some [] }

/-- A job whose index navigation timed out. -/
def envTimeout : Env :=
  { linkPage := timeoutPage }

/-- A body text with two currency figures. -/
def priceBody : String :=
  "Taxa R$ 1.200 e preço R$ 45.000 à vista"

/-- A features section with one qualifying item and two rejected ones. -/
def secItemsA : String → Option (List String) :=
  fun sec =>
    if sec = ".opcionais" then some ["  Ar condicionado  ", "ab", "x"]
    else none

/-- A job whose browser launch raises. -/
def envLaunchFail : Env :=
  { launchFailure := some "browser launch failed" }

/-- An index page exposing two listing anchors. -/
def linkPageB : LinkPage :=
  { origin := "https://ex.com"
    dom := fun sel =>
      if sel = "a[href*=\"/anuncio/\"]" then
        some [some "/anuncio/1", some "/anuncio/2"]
      else some [] }

/-- A job whose first listing extracts normally and whose second hits an
exception the per-URL handler does not intercept. -/
def envFatalMid : Env :=
  { linkPage := linkPageB
    pages := fun u =>
      if u = "https://ex.com/anuncio/1" then PageOutcome.page {}
      else PageOutcome.fatal "cancelled" }

/-- An index page exposing five listing anchors. -/
def linkPage5 : LinkPage :=
  { origin := "https://ex.com"
    dom := fun sel =>
      if sel = "a[href*=\"/anuncio/\"]" then
        some [some "/anuncio/1", some "/anuncio/2", some "/anuncio/3",
              some "/anuncio/4", some "/anuncio/5"]
      else some [] }

/-- A job with five links where only link 3 raises a (caught) navigation
failure. -/
def env5 : Env :=
  { linkPage := linkPage5
    pages := fun u =>
      PageOutcome.page
        (if u = "https://ex.com/anuncio/3" then { raises := true } else {}) }

/-! ### Merge lemmas -/

theorem dictLookup_set_self (d : List (String × List String)) (k : String)
    (v : List String) : dictLookup (dictSet d k v) k = some v := by
  induction d with
  | nil => simp [dictSet, dictLookup]
  | cons hd rest ih =>
    obtain ⟨k', v'⟩ := hd
    by_cases h : k' = k
    · simp [dictSet, h, dictLookup]
    · simp [dictSet, h, dictLookup, ih]

theorem dictLookup_set_ne (d : List (String × List String)) (k : String)
    (v : List String) (k' : String) (h : k' ≠ k) :
    dictLookup (dictSet d k v) k' = dictLookup d k' := by
  induction d with
  | nil => simp [dictSet, dictLookup, Ne.symm h]
  | cons hd rest ih =>
    obtain ⟨k0, v0⟩ := hd
    by_cases h0 : k0 = k
    · subst h0
      simp [dictSet, dictLookup, Ne.symm h]
    · simp [dictSet, h0, dictLookup, ih]

theorem dictLookup_eq_none_of_not_mem (d : List (String × List String))
    (k : String) (h : k ∉ d.map Prod.fst) : dictLookup d k = none := by
  induction d with
  | nil => simp [dictLookup]
  | cons hd rest ih =>
    obtain ⟨k', v'⟩ := hd
    simp only [List.map_cons, List.mem_cons] at h
    push_neg at h
    simp [dictLookup, Ne.symm h.1, ih h.2]

theorem mergeSiteLoop_lookupD (site : List (String × List String))
    (hs : (site.map Prod.fst).Nodup) (uni : List (String × List String))
    (k : String) :
    lookupD (mergeSiteLoop site uni) k = lookupD site k ++ lookupD uni k := by
  induction site generalizing uni with
  | nil => simp [mergeSiteLoop, lookupD, dictLookup]
  | cons hd rest ih =>
    obtain ⟨k0, v0⟩ := hd
    simp only [List.map_cons, List.nodup_cons] at hs
    have hstep : mergeSiteLoop ((k0, v0) :: rest) uni
        = mergeSiteLoop rest (dictSet uni k0 (v0 ++ lookupD uni k0)) := by
      simp only [mergeSiteLoop]
      cases h0 : dictLookup uni k0 with
      | none => simp [lookupD, h0]
      | some ex => simp [lookupD, h0]
    rw [hstep, ih hs.2]
    by_cases hk : k = k0
    · subst hk
      have hrest : dictLookup rest k = none :=
        dictLookup_eq_none_of_not_mem rest k hs.1
      simp [lookupD, dictLookup, hrest, dictLookup_set_self]
    · have hset : lookupD (dictSet uni k0 (v0 ++ lookupD uni k0)) k
          = lookupD uni k := by
        simp [lookupD, dictLookup_set_ne _ _ _ _ hk]
      rw [hset]
      simp [lookupD, dictLookup, Ne.symm hk]

theorem mergeCustomLoop_lookupD (custom : List (String × List String))
    (hc : (custom.map Prod.fst).Nodup) (uni : List (String × List String))
    (k : String) :
    lookupD (mergeCustomLoop custom uni) k = lookupD uni k ++ lookupD custom k := by
  induction custom generalizing uni with
  | nil => simp [mergeCustomLoop, lookupD, dictLookup]
  | cons hd rest ih =>
    obtain ⟨k0, v0⟩ := hd
    simp only [List.map_cons, List.nodup_cons] at hc
    have hstep : mergeCustomLoop ((k0, v0) :: rest) uni
        = mergeCustomLoop rest (dictSet uni k0 (lookupD uni k0 ++ v0)) := by
      simp only [mergeCustomLoop]
      cases h0 : dictLookup uni k0 with
      | none => simp [lookupD, h0]
      | some ex => simp [lookupD, h0]
    rw [hstep, ih hc.2]
    by_cases hk : k = k0
    · subst hk
      have hrest : dictLookup rest k = none :=
        dictLookup_eq_none_of_not_mem rest k hc.1
      simp [lookupD, dictLookup, hrest, dictLookup_set_self]
    · have hset : lookupD (dictSet uni k0 (lookupD uni k0 ++ v0)) k
          = lookupD uni k := by
        simp [lookupD, dictLookup_set_ne _ _ _ _ hk]
      rw [hset]
      simp [lookupD, dictLookup, Ne.symm hk]

/-- C2.  For every triple of selector tables (site-specific, generic,
custom — the first and last with distinct keys, as Python dicts have) and
every field key, the merged chain is the concatenation
site-specific ++ generic ++ custom: no entry is dropped, custom entries
are appended last (never replacing), the merged length dominates both the
site-specific and the generic length, and every input entry occurs
exactly as often as in the inputs, in site → generic → custom order. -/
theorem selector_merge_concat (site gen custom : List (String × List String))
    (hs : (site.map Prod.fst).Nodup) (hc : (custom.map Prod.fst).Nodup)
    (k : String) :
    lookupD (mergeSelectors site gen custom) k
      = lookupD site k ++ lookupD gen k ++ lookupD custom k
    ∧ max (lookupD site k).length (lookupD gen k).length
        ≤ (lookupD (mergeSelectors site gen custom) k).length
    ∧ ∀ sel : String,
        (lookupD (mergeSelectors site gen custom) k).count sel
          = (lookupD site k).count sel + (lookupD gen k).count sel
              + (lookupD custom k).count sel := by
  have hmain : lookupD (mergeSelectors site gen custom) k
      = lookupD site k ++ lookupD gen k ++ lookupD custom k := by
    unfold mergeSelectors
    rw [mergeCustomLoop_lookupD custom hc _ k, mergeSiteLoop_lookupD site hs gen k]
  refine ⟨hmain, ?_, ?_⟩
  · rw [hmain]
    simp only [List.length_append]
    omega
  · intro sel
    rw [hmain]
    simp only [List.count_append]

/-- Witness for C2 at the concrete tables of the source plus a small
custom table: the merged `price` chain is exactly the Autocarro chain,
then the generic chain, then the custom addition. -/
theorem selector_merge_concat_witness :
    lookupD (mergeSelectors autocarroSelectors universalBase
        [("price", [".meu-preco"])]) "price"
      = lookupD autocarroSelectors "price" ++ lookupD universalBase "price"
          ++ [".meu-preco"] := by
  have h := selector_merge_concat autocarroSelectors universalBase
    [("price", [".meu-preco"])] (by decide) (by decide) "price"
  rw [h.1]
  rfl

/-! ### Link discovery theorems -/

theorem mem_setAdd {s : List String} {x y : String} (h : y ∈ setAdd s x) :
    y ∈ s ∨ y = x := by
  unfold setAdd at h
  by_cases hx : x ∈ s
  · rw [if_pos hx] at h
    exact Or.inl h
  · rw [if_neg hx] at h
    simpa using h

theorem addAnchor_carHref (origin : String) (s : List String)
    (href? : Option String) (h : ∀ y ∈ s, isCarHref y = true) :
    ∀ y ∈ addAnchor origin s href?, isCarHref y = true := by
  intro y hy
  cases href? with
  | none => exact h y hy
  | some href =>
    simp only [addAnchor] at hy
    cases hc : isCarHref (resolveHref origin href) with
    | false =>
      rw [hc] at hy
      simp at hy
      exact h y hy
    | true =>
      rw [hc] at hy
      simp at hy
      rcases mem_setAdd hy with h1 | h2
      · exact h y h1
      · rw [h2]
        exact hc

theorem foldl_addAnchor_carHref (origin : String) (anchors : List (Option String)) :
    ∀ s, (∀ y ∈ s, isCarHref y = true) →
      ∀ y ∈ anchors.foldl (addAnchor origin) s, isCarHref y = true := by
  induction anchors with
  | nil =>
    intro s h y hy
    simpa using h y (by simpa using hy)
  | cons a as ih =>
    intro s h y hy
    simp only [List.foldl_cons] at hy
    exact ih _ (addAnchor_carHref origin s a h) y hy

theorem foldl_addSelector_carHref (dom : String → Option (List (Option String)))
    (origin : String) (sels : List String) :
    ∀ s, (∀ y ∈ s, isCarHref y = true) →
      ∀ y ∈ sels.foldl (addSelectorLinks dom origin) s, isCarHref y = true := by
  induction sels with
  | nil =>
    intro s h y hy
    simpa using h y (by simpa using hy)
  | cons sel rest ih =>
    intro s h y hy
    simp only [List.foldl_cons] at hy
    refine ih _ ?_ y hy
    intro z hz
    unfold addSelectorLinks at hz
    cases hd : dom sel with
    | none =>
      rw [hd] at hz
      exact h z hz
    | some anchors =>
      rw [hd] at hz
      exact foldl_addAnchor_carHref origin anchors s h z hz

theorem evalCarLinksScript_carHref (dom : String → Option (List (Option String)))
    (origin : String) (sels : List String) :
    ∀ y ∈ evalCarLinksScript dom origin sels, isCarHref y = true := by
  intro y hy
  exact foldl_addSelector_carHref dom origin sels [] (by simp) y hy

/-- C10.  Every URL returned by link discovery contains one of the four
listing keywords `veiculo`, `carro`, `anuncio`, `automovel`; in
particular an anchor — for instance one matched by the built-in
`/vehicle/` selector — whose resolved URL contains none of them is never
in the result. -/
theorem car_links_keyword_filter (cfg : Config) (page : LinkPage)
    (stats : JobStats) :
    (∀ u ∈ (get_car_links cfg page stats).1, isCarHref u = true)
    ∧ ∀ href : String, isCarHref (resolveHref page.origin href) = false →
        resolveHref page.origin href ∉ (get_car_links cfg page stats).1 := by
  have hinv : ∀ u ∈ (get_car_links cfg page stats).1, isCarHref u = true := by
    intro u hu
    unfold get_car_links at hu
    cases hn : page.navRaised with
    | true =>
      rw [hn] at hu
      simp at hu
    | false =>
      rw [hn] at hu
      simp only [if_false, Bool.false_eq_true] at hu
      have hu2 := List.take_subset _ _ hu
      exact evalCarLinksScript_carHref page.dom page.origin _ u hu2
  refine ⟨hinv, ?_⟩
  intro href hf hm
  rw [hinv _ hm] at hf
  exact Bool.true_eq_false.mp hf

/-- Witness for C10: the `/vehicle/99` anchor of `linkPageV` is matched
by the built-in selector but filtered out of the result. -/
theorem car_links_keyword_filter_witness :
    resolveHref linkPageV.origin "/vehicle/99"
      ∉ (get_car_links {} linkPageV stats0).1 := by
  exact (car_links_keyword_filter {} linkPageV stats0).2 "/vehicle/99" (by decide)

/-- C7.  When navigation succeeds, link discovery records the
pre-truncation total of filtered, deduplicated links in `total_found`
and returns the first `max_pages` (default 50) of them, hence at most
`max_pages` links. -/
theorem link_discovery_truncation (cfg : Config) (page : LinkPage)
    (stats : JobStats) (h : page.navRaised = false) :
    (get_car_links cfg page stats).2.total_found
      = (evalCarLinksScript page.dom page.origin
          (lookupD (get_universal_selectors cfg.custom_selectors)
            "car_links")).length
    ∧ (get_car_links cfg page stats).1
      = (evalCarLinksScript page.dom page.origin
          (lookupD (get_universal_selectors cfg.custom_selectors)
            "car_links")).take (cfg.max_pages.getD 50)
    ∧ (get_car_links cfg page stats).1.length ≤ cfg.max_pages.getD 50 := by
  refine ⟨?_, ?_, ?_⟩ <;>
    simp [get_car_links, h, List.length_take]

/-- Witness for C7: three links found, `total_found = 3`, only the first
two returned under `max_pages = 2`. -/
theorem link_discovery_truncation_witness :
    (get_car_links { max_pages := some 2 } linkPageA stats0).1
        = ["https://example.com/anuncio/1", "https://example.com/anuncio/2"]
    ∧ (get_car_links { max_pages := some 2 } linkPageA stats0).2.total_found = 3 := by
  have h := link_discovery_truncation { max_pages := some 2 } linkPageA stats0 rfl
  refine ⟨?_, ?_⟩
  · rw [h.2.1]
    decide
  · rw [h.1]
    decide

/-- Counterexample to C6 as stated.  On `timeoutPage` navigation raised
(the 30s wait elapsed), yet its DOM holds an anchor that the selector
chain would harvest: evaluating the chain against the present DOM would
yield one link, but `get_car_links` returns the empty list — extraction
does not proceed with the partial DOM. -/
theorem nav_timeout_cex :
    (get_car_links {} timeoutPage stats0).1 = []
    ∧ evalCarLinksScript timeoutPage.dom timeoutPage.origin
        (lookupD (get_universal_selectors none) "car_links")
      = ["https://example.com/veiculo/1"] := by
  refine ⟨rfl, by decide⟩

/-- C6 (amended).  A navigation timeout during link discovery is not
fatal to the job — the exception is caught inside `get_car_links` — but
extraction does not proceed with whatever DOM is present: discovery
returns the empty link list without evaluating the selector chain (the
statistics are left untouched), and the job completes with an empty
result set. -/
theorem nav_timeout_nonfatal (cfg : Config) (env : Env)
    (hl : env.launchFailure = none) (hn : env.linkPage.navRaised = true) :
    get_car_links cfg env.linkPage stats0 = ([], stats0)
    ∧ (run_scraping_job cfg env).job.status = "completed"
    ∧ (run_scraping_job cfg env).savedCars = some [] := by
  have h1 : get_car_links cfg env.linkPage stats0 = ([], stats0) := by
    simp [get_car_links, hn]
  refine ⟨h1, ?_, ?_⟩ <;>
    simp [run_scraping_job, scrape_website, hl, h1]

/-- Witness for the amended C6 on the concrete timed-out page. -/
theorem nav_timeout_nonfatal_witness :
    get_car_links {} envTimeout.linkPage stats0 = ([], stats0)
    ∧ (run_scraping_job {} envTimeout).job.status = "completed"
    ∧ (run_scraping_job {} envTimeout).savedCars = some [] := by
  exact nav_timeout_nonfatal {} envTimeout rfl rfl

/-! ### Field extraction theorems -/

theorem postProcess_success (car : CarData) :
    (postProcessMarcaModelo car).extraction_success = car.extraction_success := by
  unfold postProcessMarcaModelo
  by_cases h : car.titulo ≠ "N/A"
  · rw [if_pos h]
    cases hm : pySplit (toUpperJs car.titulo) with
    | nil => simp [hm]
    | cons a tl =>
      cases tl with
      | nil => simp [hm]
      | cons b rest => simp [hm]
  · rw [if_neg h]

/-- C4.  Whenever navigation and script evaluation complete without
raising, `extract_car_data` produces a record (never a partial shape)
whose `extraction_success` flag is true; and on a page where no
extractor matches anything, every string field carries the `N/A`
sentinel and the list fields are empty. -/
theorem record_shape_total (p : ListingPage) (stats : JobStats)
    (hok : p.raises = false) :
    (∃ car, (extract_car_data p stats).1 = some car
       ∧ car.extraction_success = true)
    ∧ ((p.queryText = fun _ => none) → p.title = "" → p.bodyText = "" →
        p.priceTexts = [] → (p.queryImages = fun _ => []) →
        (p.sectionItems = fun _ => none) → p.whatsappHrefs = [] →
        (extract_car_data p stats).1 = some
          { url := p.href, timestamp := p.now, domain := p.hostname,
            titulo := "N/A", preco := "N/A", marca := "N/A", modelo := "N/A",
            ano := "N/A", quilometragem := "N/A", combustivel := "N/A",
            cambio := "N/A", cor := "N/A", placa := "N/A", portas := "N/A",
            cidade := "N/A", estado := "N/A", fotos := [], total_fotos := 0,
            opcionais := [], total_opcionais := 0, telefone := "N/A",
            whatsapp := "N/A", descricao := "N/A", vendedor := "N/A",
            visitas := "N/A", extracted_at := p.now,
            extraction_success := true }) := by
  constructor
  · refine ⟨postProcessMarcaModelo (evalCarDataScript p), ?_, ?_⟩
    · simp [extract_car_data, carOf, hok]
    · rw [postProcess_success]
      rfl
  · intro hq ht hb hpt hqi hsi hw
    have e_tit : getTitle p = "N/A" := by
      simp only [getTitle, hq, ht]
      rfl
    have e_pre : getPrice p.priceTexts p.bodyText = "N/A" := by
      rw [hpt, hb]
      rfl
    have e_spec : getSpecsFromIcons p.bodyText = {} := by
      rw [hb]
      rfl
    have e_img : getAllImages p = [] := by
      simp only [getAllImages, hqi]
      rfl
    have e_opt : getOptionals p.sectionItems p.bodyText = [] := by
      rw [hsi, hb]
      rfl
    have e_con : getContactInfo p = {} := by
      simp only [getContactInfo, hb, hw]
      rfl
    have e_vis : getVisitas p = "N/A" := by
      simp only [getVisitas, hq]
    have ecar : evalCarDataScript p =
        { url := p.href, timestamp := p.now, domain := p.hostname,
          titulo := "N/A", preco := "N/A", marca := "N/A", modelo := "N/A",
          ano := "N/A", quilometragem := "N/A", combustivel := "N/A",
          cambio := "N/A", cor := "N/A", placa := "N/A", portas := "N/A",
          cidade := "N/A", estado := "N/A", fotos := [], total_fotos := 0,
          opcionais := [], total_opcionais := 0, telefone := "N/A",
          whatsapp := "N/A", descricao := "N/A", vendedor := "N/A",
          visitas := "N/A", extracted_at := p.now,
          extraction_success := true } := by
      simp only [evalCarDataScript, e_tit, e_pre, e_spec, e_img, e_opt,
        e_con, e_vis]
      rfl
    have h1 : (extract_car_data p stats).1
        = some (postProcessMarcaModelo (evalCarDataScript p)) := by
      simp [extract_car_data, carOf, hok]
    rw [h1, ecar]
    rfl

/-- Witness for C4: the fully blank page (all defaults) yields the
all-sentinel record with `extraction_success = true`. -/
theorem record_shape_total_witness :
    (extract_car_data {} stats0).1 = some
      { url := "", timestamp := "", domain := "",
        titulo := "N/A", preco := "N/A", marca := "N/A", modelo := "N/A",
        ano := "N/A", quilometragem := "N/A", combustivel := "N/A",
        cambio := "N/A", cor := "N/A", placa := "N/A", portas := "N/A",
        cidade := "N/A", estado := "N/A", fotos := [], total_fotos := 0,
        opcionais := [], total_opcionais := 0, telefone := "N/A",
        whatsapp := "N/A", descricao := "N/A", vendedor := "N/A",
        visitas := "N/A", extracted_at := "",
        extraction_success := true } := by
  exact (record_shape_total {} stats0 rfl).2 rfl rfl rfl rfl rfl rfl rfl

/-! ### Price heuristic theorems -/

theorem reduceMax_mem (a : String) (l : List String) :
    reduceMax a l ∈ a :: l := by
  induction l generalizing a with
  | nil => simp [reduceMax]
  | cons b rest ih =>
    rw [reduceMax]
    have h := ih (if gtNum (parsedNum a) (parsedNum b) then a else b)
    rcases List.mem_cons.mp h with h1 | h2
    · rw [h1]
      by_cases hg : gtNum (parsedNum a) (parsedNum b) = true
      · rw [if_pos hg]
        simp
      · rw [if_neg hg]
        simp
    · exact List.mem_cons.mpr (Or.inr (List.mem_cons.mpr (Or.inr h2)))

theorem reduceMax_ge (l : List String) (a : String)
    (h : ∀ x ∈ a :: l, (parsedNum x).isSome) :
    ∀ x ∈ a :: l, valOf x ≤ valOf (reduceMax a l) := by
  induction l generalizing a with
  | nil =>
    intro x hx
    simp at hx
    rw [hx, reduceMax]
  | cons b rest ih =>
    intro x hx
    rw [reduceMax]
    obtain ⟨va, hva⟩ := Option.isSome_iff_exists.mp (h a (by simp))
    obtain ⟨vb, hvb⟩ := Option.isSome_iff_exists.mp (h b (by simp))
    have hc : ∀ y ∈ (if gtNum (parsedNum a) (parsedNum b) then a else b) :: rest,
        (parsedNum y).isSome := by
      intro y hy
      rcases List.mem_cons.mp hy with h1 | h2
      · rw [h1]
        by_cases hg : gtNum (parsedNum a) (parsedNum b) = true
        · rw [if_pos hg, hva]
          rfl
        · rw [if_neg hg, hvb]
          rfl
      · exact h y (by simp [h2])
    have hac : valOf a ≤ valOf (if gtNum (parsedNum a) (parsedNum b) then a else b) := by
      by_cases hg : gtNum (parsedNum a) (parsedNum b) = true
      · rw [if_pos hg]
      · rw [if_neg hg]
        rw [hva, hvb] at hg
        simp only [gtNum, decide_eq_true_eq] at hg
        simp [valOf, hva, hvb]
        omega
    have hbc : valOf b ≤ valOf (if gtNum (parsedNum a) (parsedNum b) then a else b) := by
      by_cases hg : gtNum (parsedNum a) (parsedNum b) = true
      · rw [if_pos hg]
        rw [hva, hvb] at hg
        simp only [gtNum, decide_eq_true_eq] at hg
        simp [valOf, hva, hvb]
        omega
      · rw [if_neg hg]
    have hrec := ih (if gtNum (parsedNum a) (parsedNum b) then a else b) hc
    rcases List.mem_cons.mp hx with h1 | h2
    · rw [h1]
      exact le_trans hac (hrec _ (by simp))
    · rcases List.mem_cons.mp h2 with h3 | h4
      · rw [h3]
        exact le_trans hbc (hrec _ (by simp))
      · exact hrec x (by simp [h4])

/-- C5.  `getPrice` returns the cleaned text of the first price element
whose text contains a currency marker; when there is none, it scans the
body text with the currency-amount pattern and returns a match of
maximal numeric value (whenever every match parses to a number, which
holds for every match with a digit); when there is no match at all it
returns the sentinel. -/
theorem price_extraction_spec (texts : List String) (body : String) :
    (∀ t, texts.find? priceElemCond = some t →
        getPrice texts body = cleanText t)
    ∧ (texts.find? priceElemCond = none → scanPrices body = [] →
        getPrice texts body = "N/A")
    ∧ (texts.find? priceElemCond = none → ∀ m rest,
        scanPrices body = m :: rest →
        getPrice texts body ∈ m :: rest
        ∧ ((∀ x ∈ m :: rest, (parsedNum x).isSome) →
            ∀ x ∈ m :: rest, valOf x ≤ valOf (getPrice texts body))) := by
  refine ⟨?_, ?_, ?_⟩
  · intro t ht
    simp [getPrice, ht]
  · intro h1 h2
    simp [getPrice, h1, h2]
  · intro h1 m rest h2
    have hg : getPrice texts body = reduceMax m rest := by
      simp [getPrice, h1, h2]
    rw [hg]
    exact ⟨reduceMax_mem m rest, fun hall => reduceMax_ge rest m hall⟩

/-- Witness for C5: the element branch, the no-match branch, and the
page with `R$ 1.200` and `R$ 45.000` where the larger figure wins. -/
theorem price_extraction_spec_witness :
    getPrice ["oferta R$ 39.900,00"] "x" = "oferta R$ 39.900,00"
    ∧ getPrice [] "sem valores" = "N/A"
    ∧ getPrice [] priceBody ∈ ["R$ 1.200", "R$ 45.000"]
    ∧ (∀ x ∈ (["R$ 1.200", "R$ 45.000"] : List String),
        valOf x ≤ valOf (getPrice [] priceBody))
    ∧ getPrice [] priceBody = "R$ 45.000" := by
  have h1 := (price_extraction_spec ["oferta R$ 39.900,00"] "x").1
    "oferta R$ 39.900,00" (by decide)
  have h3 := (price_extraction_spec [] priceBody).2.2 (by decide)
    "R$ 1.200" ["R$ 45.000"] (by decide)
  refine ⟨?_, ?_, h3.1, h3.2 (by decide), ?_⟩
  · rw [h1]
    decide
  · exact (price_extraction_spec [] "sem valores").2.1 (by decide) (by decide)
  · decide

/-! ### Optionals theorems -/

theorem setAdd_nodup (s : List String) (x : String) (h : s.Nodup) :
    (setAdd s x).Nodup := by
  unfold setAdd
  by_cases hx : x ∈ s
  · rw [if_pos hx]
    exact h
  · rw [if_neg hx]
    simp [List.nodup_append, h, hx]

theorem foldl_setAdd_nodup (l : List String) :
    ∀ s, s.Nodup → (l.foldl setAdd s).Nodup := by
  induction l with
  | nil =>
    intro s h
    simpa using h
  | cons a as ih =>
    intro s h
    simp only [List.foldl_cons]
    exact ih _ (setAdd_nodup s a h)

theorem dedupFirst_nodup (l : List String) : (dedupFirst l).Nodup :=
  foldl_setAdd_nodup l [] (by simp)

theorem collectFromSections_len (items : String → Option (List String))
    (secs : List String) :
    ∀ t ∈ collectFromSections items secs, 3 ≤ t.length ∧ t.length ≤ 49 := by
  induction secs with
  | nil =>
    intro t ht
    simp [collectFromSections] at ht
  | cons sec rest ih =>
    intro t ht
    rw [collectFromSections] at ht
    cases hs : items sec with
    | none =>
      rw [hs] at ht
      exact ih t ht
    | some its =>
      rw [hs] at ht
      rcases List.mem_append.mp ht with h1 | h2
      · have := List.of_mem_filter h1
        simp only [goodOptionalText, Bool.and_eq_true, decide_eq_true_eq] at this
        omega
      · exact ih t h2

theorem collectFromSections_none (items : String → Option (List String))
    (secs : List String) (h : ∀ sec ∈ secs, items sec = none) :
    collectFromSections items secs = [] := by
  induction secs with
  | nil => rfl
  | cons sec rest ih =>
    rw [collectFromSections, h sec (by simp)]
    exact ih fun v hv => h v (by simp [hv])

/-- C9.  Optionals extraction collects, from the features-section
selectors, child items whose cleaned text length lies in `[3,49]`; when
none of those sections exists it falls back to scanning the lower-cased
page text for the fixed vocabulary of common automotive features; the
final list is deduplicated (first occurrences kept) and capped at 20
entries. -/
theorem optionals_spec (items : String → Option (List String)) (body : String) :
    (∀ t ∈ collectFromSections items optionalSections,
        3 ≤ t.length ∧ t.length ≤ 49)
    ∧ ((∀ sec ∈ optionalSections, items sec = none) →
        getOptionals items body
          = (dedupFirst (commonOptionals.filter
              (fun o => strContains (toLowerJs body) o))).take 20)
    ∧ (getOptionals items body).Nodup
    ∧ (getOptionals items body).length ≤ 20 := by
  refine ⟨collectFromSections_len items optionalSections, ?_, ?_, ?_⟩
  · intro h
    rw [getOptionals, collectFromSections_none items optionalSections h]
    rfl
  · rw [getOptionals]
    exact (dedupFirst_nodup _).sublist (List.take_sublist _ _)
  · rw [getOptionals]
    simp only [List.length_take]
    exact Nat.min_le_left _ _

/-- Witness for C9: a present section keeps only the item of admissible
length; with no section present, a body mentioning two vocabulary
entries yields exactly those, deduplicated. -/
theorem optionals_spec_witness :
    getOptionals (fun _ => none) "tem abs e bluetooth e abs"
        = ["abs", "bluetooth"]
    ∧ (getOptionals secItemsA "").Nodup
    ∧ (3 ≤ ("Ar condicionado" : String).length
        ∧ ("Ar condicionado" : String).length ≤ 49) := by
  have h := (optionals_spec (fun _ => none) "tem abs e bluetooth e abs").2.1
    (fun sec _ => rfl)
  refine ⟨?_, (optionals_spec secItemsA "").2.2.1, ?_⟩
  · rw [h]
    decide
  · exact (optionals_spec secItemsA "").1 "Ar condicionado" (by decide)

/-! ### Orchestrator loop lemmas -/

theorem scrapeLoop_cons_fatal (delay : Nat) (pages : String → PageOutcome)
    (u : String) (rest : List String) (data : List CarData) (stats : JobStats)
    (t s : Nat) (msg : String) (hp : pages u = PageOutcome.fatal msg) :
    scrapeLoop delay pages (u :: rest) data stats t s
      = ⟨some msg, data, stats, t, s⟩ := by
  rw [scrapeLoop, hp]

theorem scrapeLoop_single_page (delay : Nat) (pages : String → PageOutcome)
    (u : String) (data : List CarData) (stats : JobStats) (t s : Nat)
    (p : ListingPage) (hp : pages u = PageOutcome.page p) :
    scrapeLoop delay pages [u] data stats t s
      = ⟨none,
         (match (extract_car_data p stats).1 with
          | some car => data ++ [car]
          | none => data),
         (extract_car_data p stats).2, t + p.duration, s⟩ := by
  rw [scrapeLoop, hp]
  rfl

theorem scrapeLoop_cons_page (delay : Nat) (pages : String → PageOutcome)
    (u v : String) (vs : List String) (data : List CarData) (stats : JobStats)
    (t s : Nat) (p : ListingPage) (hp : pages u = PageOutcome.page p) :
    scrapeLoop delay pages (u :: v :: vs) data stats t s
      = scrapeLoop delay pages (v :: vs)
          (match (extract_car_data p stats).1 with
           | some car => data ++ [car]
           | none => data)
          (extract_car_data p stats).2 (t + p.duration + delay) (s + 1) := by
  rw [scrapeLoop, hp]
  rfl

theorem scrapeLoop_no_fatal (delay : Nat) (pages : String → PageOutcome)
    (links : List String) :
    ∀ (data : List CarData) (stats : JobStats) (t s : Nat),
    (∀ u ∈ links, isFatalOutcome (pages u) = false) →
    scrapeLoop delay pages links data stats t s =
      ⟨none,
       data ++ links.filterMap (fun u => outcomeCar (pages u)),
       { total_found := stats.total_found,
         successfully_scraped := stats.successfully_scraped
           + links.countP (fun u => outcomeOk (pages u)),
         errors := stats.errors
           + links.countP (fun u => outcomeRaises (pages u)) },
       t + (links.map (fun u => outcomeDur (pages u))).sum
         + delay * (links.length - 1),
       s + (links.length - 1)⟩ := by
  induction links with
  | nil =>
    intro data stats t s _
    simp [scrapeLoop]
  | cons u rest ih =>
    intro data stats t s h
    have hu := h u (by simp)
    have hrest : ∀ v ∈ rest, isFatalOutcome (pages v) = false :=
      fun v hv => h v (by simp [hv])
    cases hp : pages u with
    | fatal msg =>
      rw [hp] at hu
      simp [isFatalOutcome] at hu
    | page p =>
      cases rest with
      | nil =>
        rw [scrapeLoop_single_page delay pages u data stats t s p hp]
        cases hpr : p.raises <;>
          simp [extract_car_data, carOf, hpr, hp, outcomeCar,
            outcomeOk, outcomeRaises, outcomeDur]
      | cons v vs =>
        rw [scrapeLoop_cons_page delay pages u v vs data stats t s p hp]
        rw [ih _ _ _ _ hrest]
        cases hpr : p.raises <;>
          · simp only [extract_car_data, carOf, hpr, Bool.false_eq_true,
              if_false, if_true, eq_self_iff_true, LoopResult.mk.injEq, hp,
              outcomeCar, outcomeOk, outcomeRaises, outcomeDur,
              List.filterMap_cons, List.countP_cons, List.map_cons,
              List.sum_cons, List.length_cons, Nat.add_sub_cancel,
              JobStats.mk.injEq]
            and_intros <;>
              first
                | rfl
                | trivial
                | omega
                | ring1
                | (simp only [List.append_assoc, List.singleton_append])
                | (simp only [Bool.not_false, eq_self_iff_true, if_true]
                   ring1)

theorem scrapeLoop_first_fatal (delay : Nat) (pages : String → PageOutcome)
    (links : List String) :
    ∀ (data : List CarData) (stats : JobStats) (t s : Nat) (msg : String)
      (u0 : String) (rest0 : List String),
    links.dropWhile (fun u => !isFatalOutcome (pages u)) = u0 :: rest0 →
    pages u0 = PageOutcome.fatal msg →
    (scrapeLoop delay pages links data stats t s).fatalMsg = some msg
    ∧ (scrapeLoop delay pages links data stats t s).data
        = data ++ (links.takeWhile
            (fun u => !isFatalOutcome (pages u))).filterMap
            (fun u => outcomeCar (pages u)) := by
  induction links with
  | nil =>
    intro data stats t s msg u0 rest0 hsplit _
    simp [List.dropWhile] at hsplit
  | cons u rest ih =>
    intro data stats t s msg u0 rest0 hsplit hmsg
    cases hfu : isFatalOutcome (pages u) with
    | true =>
      rw [List.dropWhile_cons, hfu] at hsplit
      simp only [Bool.not_true, Bool.false_eq_true, if_false,
        List.cons.injEq] at hsplit
      obtain ⟨h1, _⟩ := hsplit
      subst h1
      rw [scrapeLoop_cons_fatal delay pages u rest data stats t s msg hmsg]
      refine ⟨rfl, ?_⟩
      simp [List.takeWhile_cons, hfu]
    | false =>
      cases hp : pages u with
      | fatal m2 =>
        rw [hp] at hfu
        simp [isFatalOutcome] at hfu
      | page p =>
        have hdrop : rest.dropWhile (fun x => !isFatalOutcome (pages x))
            = u0 :: rest0 := by
          rw [List.dropWhile_cons, hfu] at hsplit
          simpa using hsplit
        cases rest with
        | nil => simp [List.dropWhile] at hdrop
        | cons v vs =>
          rw [scrapeLoop_cons_page delay pages u v vs data stats t s p hp]
          have hrec := ih
            (match (extract_car_data p stats).1 with
             | some car => data ++ [car]
             | none => data)
            (extract_car_data p stats).2 (t + p.duration + delay) (s + 1)
            msg u0 rest0 hdrop hmsg
          refine ⟨hrec.1, ?_⟩
          rw [hrec.2]
          cases hpr : p.raises <;>
            simp [List.takeWhile_cons, hfu, List.filterMap_cons, hp,
              outcomeCar, carOf, hpr, extract_car_data, isFatalOutcome,
              List.append_assoc]

theorem get_car_links_zero_counters (cfg : Config) (page : LinkPage) :
    (get_car_links cfg page stats0).2.errors = 0
    ∧ (get_car_links cfg page stats0).2.successfully_scraped = 0 := by
  cases hn : page.navRaised <;> simp [get_car_links, hn, stats0]

theorem length_filterMap_add_countP (f : String → Option CarData)
    (l : List String) :
    (l.filterMap f).length + l.countP (fun u => (f u).isNone) = l.length := by
  induction l with
  | nil => simp
  | cons a as ih =>
    cases hf : f a <;>
      simp [List.filterMap_cons, hf, List.countP_cons] <;> omega

theorem countP_congr_mem (l : List String) (p q : String → Bool)
    (h : ∀ a ∈ l, p a = q a) : l.countP p = l.countP q := by
  induction l with
  | nil => rfl
  | cons a as ih =>
    simp [List.countP_cons, h a (by simp),
      ih (fun x hx => h x (by simp [hx]))]

/-- C1.  When an exception escapes the whole scraping sequence — a
browser-launch failure before any link is discovered, or an exception
the per-URL handler does not intercept in the middle of the loop — the
job goes directly to `failed` with the exception message recorded, and
the scraper's accumulated `cars_data` is not discarded: after the fatal
error it still holds exactly the records produced for the links
processed before the fatal one. -/
theorem fatal_failure_spec (cfg : Config) (env : Env) :
    (∀ msg, env.launchFailure = some msg →
       (run_scraping_job cfg env).job.status = "failed"
       ∧ (run_scraping_job cfg env).job.error_message = some msg
       ∧ (run_scraping_job cfg env).scraperData = [])
    ∧ (env.launchFailure = none →
       ∀ msg u0 rest0,
         (get_car_links cfg env.linkPage stats0).1.dropWhile
             (fun u => !isFatalOutcome (env.pages u)) = u0 :: rest0 →
         env.pages u0 = PageOutcome.fatal msg →
         (run_scraping_job cfg env).job.status = "failed"
         ∧ (run_scraping_job cfg env).job.error_message = some msg
         ∧ (run_scraping_job cfg env).savedCars = none
         ∧ (run_scraping_job cfg env).scraperData
             = ((get_car_links cfg env.linkPage stats0).1.takeWhile
                 (fun u => !isFatalOutcome (env.pages u))).filterMap
                 (fun u => outcomeCar (env.pages u))) := by
  constructor
  · intro msg hmsg
    refine ⟨?_, ?_, ?_⟩ <;> simp [run_scraping_job, scrape_website, hmsg]
  · intro hl msg u0 rest0 hsplit hmsg
    cases hL : (get_car_links cfg env.linkPage stats0).1 with
    | nil =>
      rw [hL] at hsplit
      simp [List.dropWhile] at hsplit
    | cons a as =>
      rw [hL] at hsplit
      have hproj := scrapeLoop_first_fatal (cfg.delay_between_requests.getD 2)
        env.pages (a :: as) [] (get_car_links cfg env.linkPage stats0).2 0 0
        msg u0 rest0 hsplit hmsg
      have hsw : scrape_website cfg env
          = ScrapeOutcome.fatal msg
              (scrapeLoop (cfg.delay_between_requests.getD 2) env.pages
                (a :: as) [] (get_car_links cfg env.linkPage stats0).2 0 0).data
              (scrapeLoop (cfg.delay_between_requests.getD 2) env.pages
                (a :: as) [] (get_car_links cfg env.linkPage stats0).2 0 0).stats := by
        simp only [scrape_website, hl]
        rw [hL]
        simp only [List.isEmpty_cons, Bool.false_eq_true, if_false]
        rw [hproj.1]
      refine ⟨?_, ?_, ?_, ?_⟩ <;>
        simp [run_scraping_job, hsw, hproj.2, hL]

/-- Witness for C1: a launch failure fails the job with nothing
accumulated; a mid-loop fatal error after one successful listing fails
the job with the message recorded while the one accumulated record is
retained. -/
theorem fatal_failure_spec_witness :
    ((run_scraping_job {} envLaunchFail).job.status = "failed"
      ∧ (run_scraping_job {} envLaunchFail).job.error_message
          = some "browser launch failed"
      ∧ (run_scraping_job {} envLaunchFail).scraperData = [])
    ∧ (run_scraping_job {} envFatalMid).job.status = "failed"
    ∧ (run_scraping_job {} envFatalMid).job.error_message = some "cancelled"
    ∧ (run_scraping_job {} envFatalMid).scraperData.length = 1 := by
  have h1 := (fatal_failure_spec {} envLaunchFail).1 "browser launch failed" rfl
  have h2 := (fatal_failure_spec {} envFatalMid).2 rfl "cancelled"
    "https://ex.com/anuncio/2" [] (by decide) (by rfl)
  refine ⟨h1, h2.1, h2.2.1, ?_⟩
  rw [h2.2.2.2]
  rfl

/-- C3.  With no fatal error, every per-URL exception is caught: the job
reaches `completed`, the error counter equals the number of failing
URLs, the saved records are exactly the successful extractions in
link-discovery order (the failing URL contributes no record), and the
record count is the link count minus the failure count. -/
theorem page_failure_spec (cfg : Config) (env : Env)
    (hl : env.launchFailure = none)
    (hnf : ∀ u ∈ (get_car_links cfg env.linkPage stats0).1,
        isFatalOutcome (env.pages u) = false) :
    (run_scraping_job cfg env).job.status = "completed"
    ∧ (run_scraping_job cfg env).savedCars
        = some ((get_car_links cfg env.linkPage stats0).1.filterMap
            (fun u => outcomeCar (env.pages u)))
    ∧ (run_scraping_job cfg env).job.errors
        = (get_car_links cfg env.linkPage stats0).1.countP
            (fun u => outcomeRaises (env.pages u))
    ∧ ((get_car_links cfg env.linkPage stats0).1.filterMap
          (fun u => outcomeCar (env.pages u))).length
        = (get_car_links cfg env.linkPage stats0).1.length
          - (get_car_links cfg env.linkPage stats0).1.countP
              (fun u => outcomeRaises (env.pages u)) := by
  have hlen : ∀ L : List String,
      (∀ u ∈ L, isFatalOutcome (env.pages u) = false) →
      (L.filterMap (fun u => outcomeCar (env.pages u))).length
        = L.length - L.countP (fun u => outcomeRaises (env.pages u)) := by
    intro L hf
    have h1 := length_filterMap_add_countP (fun u => outcomeCar (env.pages u)) L
    have h2 : L.countP (fun u => (outcomeCar (env.pages u)).isNone)
        = L.countP (fun u => outcomeRaises (env.pages u)) := by
      apply countP_congr_mem
      intro x hx
      have hfx := hf x hx
      cases hp : env.pages x with
      | fatal m =>
        rw [hp] at hfx
        simp [isFatalOutcome] at hfx
      | page p =>
        cases hpr : p.raises <;>
          simp [outcomeCar, carOf, hpr, outcomeRaises, hp]
    omega
  cases hL : (get_car_links cfg env.linkPage stats0).1 with
  | nil =>
    have hsw : scrape_website cfg env = ScrapeOutcome.ok []
        (get_car_links cfg env.linkPage stats0).2 0 0 := by
      simp only [scrape_website, hl]
      rw [hL]
      rfl
    refine ⟨?_, ?_, ?_, ?_⟩ <;>
      simp [run_scraping_job, hsw, hL,
        (get_car_links_zero_counters cfg env.linkPage).1]
  | cons a as =>
    rw [hL] at hnf
    have hclosed := scrapeLoop_no_fatal (cfg.delay_between_requests.getD 2)
      env.pages (a :: as) [] (get_car_links cfg env.linkPage stats0).2 0 0 hnf
    have hsw : scrape_website cfg env = ScrapeOutcome.ok
        ((a :: as).filterMap (fun u => outcomeCar (env.pages u)))
        { total_found := (get_car_links cfg env.linkPage stats0).2.total_found,
          successfully_scraped :=
            (get_car_links cfg env.linkPage stats0).2.successfully_scraped
              + (a :: as).countP (fun u => outcomeOk (env.pages u)),
          errors := (get_car_links cfg env.linkPage stats0).2.errors
            + (a :: as).countP (fun u => outcomeRaises (env.pages u)) }
        (0 + ((a :: as).map (fun u => outcomeDur (env.pages u))).sum
          + (cfg.delay_between_requests.getD 2) * ((a :: as).length - 1))
        (0 + ((a :: as).length - 1)) := by
      simp only [scrape_website, hl]
      rw [hL]
      simp only [List.isEmpty_cons, Bool.false_eq_true, if_false]
      rw [hclosed]
      rfl
    refine ⟨?_, ?_, ?_, ?_⟩
    · simp [run_scraping_job, hsw]
    · simp [run_scraping_job, hsw, hL]
    · simp [run_scraping_job, hsw, hL,
        (get_car_links_zero_counters cfg env.linkPage).1]
    · exact hlen (a :: as) hnf

/-- Witness for C3: five links where only link 3 raises — the job
completes with one error and four records. -/
theorem page_failure_spec_witness :
    (run_scraping_job {} env5).job.status = "completed"
    ∧ (run_scraping_job {} env5).job.errors = 1
    ∧ ∃ cars, (run_scraping_job {} env5).savedCars = some cars
        ∧ cars.length = 4 := by
  have h := page_failure_spec {} env5 rfl (by decide)
  refine ⟨h.1, ?_, ⟨_, h.2.1, ?_⟩⟩
  · rw [h.2.2.1]
    decide
  · rw [h.2.2.2]
    decide

/-- C8.  For a job with at least one link and no fatal error, the
sequential phase sleeps exactly `K - 1` times (between consecutive URLs,
never after the last), so its elapsed wall time is at least
`(K - 1) * D` for the configured inter-request delay `D`. -/
theorem rate_limiting_spec (cfg : Config) (env : Env)
    (hl : env.launchFailure = none)
    (hnf : ∀ u ∈ (get_car_links cfg env.linkPage stats0).1,
        isFatalOutcome (env.pages u) = false)
    (hne : (get_car_links cfg env.linkPage stats0).1 ≠ []) :
    (scrape_website cfg env).sleepCount
        = (get_car_links cfg env.linkPage stats0).1.length - 1
    ∧ ((get_car_links cfg env.linkPage stats0).1.length - 1)
        * (cfg.delay_between_requests.getD 2)
      ≤ (scrape_website cfg env).elapsedTime := by
  cases hL : (get_car_links cfg env.linkPage stats0).1 with
  | nil => exact absurd hL hne
  | cons a as =>
    rw [hL] at hnf
    have hclosed := scrapeLoop_no_fatal (cfg.delay_between_requests.getD 2)
      env.pages (a :: as) [] (get_car_links cfg env.linkPage stats0).2 0 0 hnf
    have hsw : scrape_website cfg env = ScrapeOutcome.ok
        ((a :: as).filterMap (fun u => outcomeCar (env.pages u)))
        { total_found := (get_car_links cfg env.linkPage stats0).2.total_found,
          successfully_scraped :=
            (get_car_links cfg env.linkPage stats0).2.successfully_scraped
              + (a :: as).countP (fun u => outcomeOk (env.pages u)),
          errors := (get_car_links cfg env.linkPage stats0).2.errors
            + (a :: as).countP (fun u => outcomeRaises (env.pages u)) }
        (0 + ((a :: as).map (fun u => outcomeDur (env.pages u))).sum
          + (cfg.delay_between_requests.getD 2) * ((a :: as).length - 1))
        (0 + ((a :: as).length - 1)) := by
      simp only [scrape_website, hl]
      rw [hL]
      simp only [List.isEmpty_cons, Bool.false_eq_true, if_false]
      rw [hclosed]
      rfl
    constructor
    · rw [hsw]
      simp [ScrapeOutcome.sleepCount]
    · rw [hsw]
      simp only [ScrapeOutcome.elapsedTime, Nat.zero_add]
      rw [Nat.mul_comm]
      exact Nat.le_add_left _ _

/-- Witness for C8: five links with the default 2s delay — exactly four
sleeps and at least eight time units elapsed. -/
theorem rate_limiting_spec_witness :
    (scrape_website {} env5).sleepCount = 4
    ∧ 8 ≤ (scrape_website {} env5).elapsedTime := by
  have h := rate_limiting_spec {} env5 rfl (by decide) (by decide)
  have hlen : (get_car_links {} env5.linkPage stats0).1.length = 5 := by decide
  constructor
  · rw [h.1, hlen]
  · have h2 := h.2
    rw [hlen] at h2
    simpa using h2
